import Mathlib

/-!
Verification of the natural-language specification of `bioio-base`
(the reader abstraction for multidimensional scientific imaging data)
against a shallow embedding of its Python source.

Conventions of the embedding:
* Python strings are `String`; single-character axis labels are `Char`
  (every label handled by the code paths modelled here is one character,
  as enforced by `Dimensions.__init__`).
* A Python `dict` is an insertion-ordered association list
  (`List (Key × Value)`): inserting an existing key overwrites its value
  in place, inserting a new key appends it.  This mirrors CPython's
  ordered-dict semantics, which `dimensions.py` relies on via
  `dict(zip(dims, shape))` and `items()`.
* A raised exception is an explicit `PyErr` value; stateful methods
  return `Option PyErr × State` (or `Except PyErr α × State × …`) where
  the returned state is the receiver's state at the moment of the raise,
  so "the failed call left the state unchanged" is a provable statement.
* Machine floats (physical pixel sizes) are carried opaquely; no float
  arithmetic occurs in any modelled code path, so they are represented
  by `Rat` values that are merely stored and retrieved.
-/

/-- Exceptions raised by the modelled code paths, with their messages. -/
inductive PyErr where
  | valueError (msg : String)
  | indexError (msg : String)
  | typeError (msg : String)
  | keyError
  | attributeError (msg : String)
  | invalidDimensionOrderingError (msg : String)
  | notImplementedError
  deriving Repr, DecidableEq

/-! ## Python `dict` model (insertion-ordered association list) -/

/-- `d[k] = v` on a Python dict: overwrite in place if `k` is present,
append `(k, v)` otherwise. -/
def pyDictSet {α β : Type} [BEq α] (d : List (α × β)) (k : α) (v : β) :
    List (α × β) :=
  if d.any (fun p => p.1 == k) then
    d.map (fun p => if p.1 == k then (k, v) else p)
  else
    d ++ [(k, v)]

/-- `d.get(k)` on a Python dict (also `d[k]` wrapped in `Option`). -/
def pyDictGet {α β : Type} [BEq α] (d : List (α × β)) (k : α) : Option β :=
  (d.find? (fun p => p.1 == k)).map Prod.snd

/-- `dict(pairs)`: build a dict by inserting the pairs left to right,
so a repeated key keeps its first position but its last value. -/
def pyDictOfPairs {α β : Type} [BEq α] (l : List (α × β)) : List (α × β) :=
  l.foldl (fun acc p => pyDictSet acc p.1 p.2) []

/-! ## `dimensions.py` -/

/- The axis-label constants of `class DimensionNames`. -/
namespace DimensionNames

def Time : Char := 'T'

def Channel : Char := 'C'

def SpatialZ : Char := 'Z'

def SpatialY : Char := 'Y'

def SpatialX : Char := 'X'

def Samples : Char := 'S'

def MosaicTile : Char := 'M'

end DimensionNames

/-- `class Dimensions` after a successful `__init__`: the stored
`_order` string (as a list of characters), the stored `_shape` tuple,
and the derived `_dims_shape = dict(zip(dims, shape))`.  The per-label
instance attributes created by the `setattr` loop carry exactly the
entries of `_dims_shape`, so attribute access is modelled by
`pyDictGet` on `dims_shape`. -/
structure Dimensions where
  order : List Char
  shape : List Nat
  dims_shape : List (Char × Nat)
  deriving Repr, DecidableEq

/-- `Dimensions.__init__` for a string `dims` argument: fails with
`ValueError` when the number of labels and the shape length differ,
otherwise stores order and shape and builds `_dims_shape`. -/
def Dimensions.make (dims : List Char) (shape : List Nat) :
    Except PyErr Dimensions :=
  if dims.length ≠ shape.length then
    Except.error (PyErr.valueError
      ("Number of dimensions provided does not match shape size provided."))
  else
    Except.ok { order := dims, shape := shape,
                dims_shape := pyDictOfPairs (dims.zip shape) }

/-- `getattr(dims, label, None)`: the instance attributes of a
`Dimensions` object are exactly the keys of `_dims_shape`. -/
def Dimensions.attr (d : Dimensions) (label : Char) : Option Nat :=
  pyDictGet d.dims_shape label

/-- `Dimensions.items()`: the items view of `_dims_shape`. -/
def Dimensions.items (d : Dimensions) : List (Char × Nat) :=
  d.dims_shape

/-- The generator expression
`tuple(self._dims_shape[k] for k in key)`: sequential left-to-right
dict lookups, a missing key raising `KeyError`. -/
def pyDictLookups (d : List (Char × Nat)) : List Char → Except PyErr (List Nat)
  | [] => Except.ok []
  | k :: ks =>
    match pyDictGet d k with
    | some v => (pyDictLookups d ks).map (fun vs => v :: vs)
    | none => Except.error PyErr.keyError

/-- `Dimensions.__getitem__` for a sequence-of-labels key: collect every
label absent from `_order` into `invalid_dims`; if none are missing
return the tuple of `_dims_shape[k]` lookups in the requested order,
otherwise raise `IndexError` whose message joins every missing label. -/
def Dimensions.getItemSeq (d : Dimensions) (key : List Char) :
    Except PyErr (List Nat) :=
  let invalid_dims := key.filter (fun k => ¬ d.order.contains k)
  if invalid_dims.isEmpty then
    pyDictLookups d.dims_shape key
  else
    Except.error (PyErr.indexError
      (String.intercalate (", ") (invalid_dims.map Char.toString)
        ++ " not in " ++ String.mk d.order))

/-- `Dimensions.__getitem__` for a single-label key: raise `IndexError`
when the label is absent from `_order`, otherwise return the
one-element tuple `(self._dims_shape[key],)`. -/
def Dimensions.getItemOne (d : Dimensions) (key : Char) :
    Except PyErr (List Nat) :=
  if ¬ d.order.contains key then
    Except.error (PyErr.indexError
      (key.toString ++ " not in " ++ String.mk d.order))
  else
    match pyDictGet d.dims_shape key with
    | some v => Except.ok [v]
    | none => Except.error PyErr.keyError

/-! ## `standard_metadata.py` and `embedded_metadata.py` -/

/-- The `@dataclass StandardMetadata` of `standard_metadata.py`: a fixed
set of optional fields, all defaulting to `None`.  Physical pixel sizes
and the timelapse interval are floats that every modelled code path
merely stores, so they are carried as `Rat`. -/
structure StandardMetadata where
  binning : Option String := none
  column : Option String := none
  dimensions_present : Option (List Char) := none
  image_size_c : Option Nat := none
  image_size_t : Option Nat := none
  image_size_x : Option Nat := none
  image_size_y : Option Nat := none
  image_size_z : Option Nat := none
  imaged_by : Option String := none
  imaging_date : Option String := none
  objective : Option String := none
  pixel_size_x : Option Rat := none
  pixel_size_y : Option Rat := none
  pixel_size_z : Option Rat := none
  position_index : Option Int := none
  row : Option String := none
  timelapse : Option Bool := none
  timelapse_interval : Option Rat := none
  total_time_duration : Option String := none
  deriving Repr, DecidableEq

/-- Attribute assignment on a `StandardMetadata` instance.  The class is
a plain dataclass: it declares neither `__slots__` nor a `__setattr__`
override, so Python falls back to default object attribute assignment,
which stores ANY attribute name unconditionally in the instance dict.
The instance dict is modelled as an insertion-ordered association
list. -/
def StandardMetadata.setAttr {α : Type} (inst : List (String × α))
    (name : String) (v : α) : Except PyErr (List (String × α)) :=
  Except.ok (pyDictSet inst name v)

namespace EmbeddedMetadata

/-- The names of the `MetadataField` descriptors declared on
`class EmbeddedMetadata`, in declaration order. -/
def field_names : List String :=
  ["dimensions_present", "image_size_c", "image_size_t", "image_size_x",
   "image_size_y", "image_size_z", "pixel_size_x", "pixel_size_y",
   "pixel_size_z", "timelapse", "objective", "binning", "column",
   "imaged_by", "imaging_date", "position_index", "row",
   "total_time_duration", "well", "mosaic_tile"]

/-- `EmbeddedMetadata._allowed_fields`, as computed by
`_compute_allowed_fields` after class creation: every descriptor name
together with its private underscored form (the descriptors' private
names are assigned by `__set_name__` during class creation, before the
helper runs). -/
def allowed_fields : List String :=
  field_names ++ field_names.map (fun n => ("_" ++ n))

/-- `EmbeddedMetadata.__setattr__`: reject any attribute name outside
`_allowed_fields` with `AttributeError`; otherwise store the value (a
public descriptor name is stored by the descriptor under its private
underscored key, a private name is stored as-is). -/
def setAttr {α : Type} (inst : List (String × α)) (name : String)
    (v : α) : Except PyErr (List (String × α)) :=
  if ¬ allowed_fields.contains name then
    Except.error (PyErr.attributeError
      ("Cannot set attribute " ++ name ++ ". Only predefined fields are allowed."))
  else if field_names.contains name then
    Except.ok (pyDictSet inst ("_" ++ name) v)
  else
    Except.ok (pyDictSet inst name v)

end EmbeddedMetadata

/-- The calculated fields that `EmbeddedMetadata.from_reader` assigns on
a fresh `EmbeddedMetadata` instance. -/
structure EmbeddedMetadataRec where
  dimensions_present : Option (List Char)
  image_size_c : Option Nat
  image_size_t : Option Nat
  image_size_x : Option Nat
  image_size_y : Option Nat
  image_size_z : Option Nat
  mosaic_tile : Option Nat
  timelapse : Option Bool
  pixel_size_x : Option Rat
  pixel_size_y : Option Rat
  pixel_size_z : Option Rat
  deriving Repr, DecidableEq

/-! ## `reader.py`: the Reader state machine -/

/-- Whether a backing array is an in-memory numpy array or a delayed
dask array. -/
inductive ArrKind where
  | numpy
  | dask
  deriving Repr, DecidableEq

/-- A backing pixel array, abstracted to its kind, its shape and its
(flattened) element payload. -/
structure Arr where
  kind : ArrKind
  shape : List Nat
  values : List Int
  deriving Repr, DecidableEq

/-- `dask.array.from_array`: wrap an in-memory array as a dask array
backed by the same data. -/
def daFromArray (a : Arr) : Arr :=
  { a with kind := ArrKind.dask }

/-- An `xr.DataArray`: backing data plus axis labels, per-axis
coordinates and an attribute dict. -/
structure DataArray where
  data : Arr
  dims : List Char
  coords : List (Char × List Int)
  attrs : List (String × String)
  deriving Repr, DecidableEq

/-- `types.PhysicalPixelSizes` (floats carried as `Rat`, never computed
with in the modelled paths). -/
structure PhysicalPixelSizes where
  Z : Option Rat
  Y : Option Rat
  X : Option Rat
  deriving Repr, DecidableEq

/-- The mutable state of a `Reader` instance: the scene tuple exposed by
the `scenes` property, the two index fields, and the seven cached
derived fields that `_reset_self` clears.  Field names drop the Python
underscore prefix. -/
structure ReaderState where
  scenes : List String
  current_scene_index : Int
  current_resolution_level : Int
  xarray_dask_data : Option DataArray
  xarray_data : Option DataArray
  mosaic_xarray_dask_data : Option DataArray
  mosaic_xarray_data : Option DataArray
  dims : Option Dimensions
  metadata : Option String
  physical_pixel_sizes : Option PhysicalPixelSizes
  deriving Repr, DecidableEq

/-- The two plugin-supplied read primitives and the two overridable
stitch primitives of a concrete `Reader` subclass, as functions of the
current scene index and resolution level.  The base-class stitch
defaults raise `NotImplementedError`; an override returns `Except.ok`. -/
structure ReaderPlugin where
  read_delayed : Int → Int → DataArray
  read_immediate : Int → Int → DataArray
  get_stitched_dask_mosaic : Int → Int → Except PyErr DataArray
  get_stitched_mosaic : Int → Int → Except PyErr DataArray

/-- Invocation counters for the plugin primitives, used to state that a
given access did (or did not) invoke a primitive. -/
structure PrimCounts where
  delayed : Nat
  immediate : Nat
  stitched_dask : Nat
  stitched : Nat
  deriving Repr, DecidableEq

namespace Reader

/-- `Reader._reset_self`: clear the seven cached derived fields. -/
def resetSelf (s : ReaderState) : ReaderState :=
  { s with xarray_dask_data := none, xarray_data := none,
           mosaic_xarray_dask_data := none, mosaic_xarray_data := none,
           dims := none, metadata := none, physical_pixel_sizes := none }

/-- Python tuple indexing `xs[i]`: a negative index counts from the end,
an index out of range raises `IndexError`. -/
def pyTupleGet (xs : List String) (i : Int) : Except PyErr String :=
  let j := if i < 0 then i + (xs.length : Int) else i
  if 0 ≤ j ∧ j < (xs.length : Int) then
    Except.ok (xs.getD j.toNat "")
  else
    Except.error (PyErr.indexError ("tuple index out of range"))

/-- `Reader.current_scene`: `self.scenes[self._current_scene_index]`. -/
def currentScene (s : ReaderState) : Except PyErr String :=
  pyTupleGet s.scenes s.current_scene_index

/-- The argument of `Reader.set_scene`: a scene id (string) or a scene
index (integer). -/
inductive SceneId where
  | str (t : String)
  | idx (i : Int)
  deriving Repr, DecidableEq

/-- The `IndexError` message of the string branch of `set_scene`. -/
def sceneNotFoundMsg (t : String) : String :=
  "Scene id: " ++ t ++ " is not present in available image scenes."

/-- The `IndexError` message of the integer branch of `set_scene`. -/
def sceneIndexOutOfRangeMsg (i : Int) (n : Nat) : String :=
  "Scene index: " ++ toString i
    ++ " is greater than the maximum available scene index ("
    ++ toString ((n : Int) - 1) ++ ") present in the file."

/-- `Reader.set_scene`: a no-op when the requested scene equals the
current one; otherwise validate (string: membership in `scenes`;
integer: `scene_id >= len(scenes)` raises), update
`_current_scene_index` and call `_reset_self`.  A raise returns the
state unchanged as of the raise. -/
def setScene (s : ReaderState) (scene_id : SceneId) :
    Option PyErr × ReaderState :=
  match scene_id with
  | SceneId.str t =>
    match currentScene s with
    | Except.error e => (some e, s)
    | Except.ok cur =>
      if t = cur then
        (none, s)
      else if t ∉ s.scenes then
        (some (PyErr.indexError (sceneNotFoundMsg t)), s)
      else
        (none, resetSelf { s with current_scene_index := (s.scenes.indexOf t : Int) })
  | SceneId.idx i =>
    if i = s.current_scene_index then
      (none, s)
    else if (s.scenes.length : Int) ≤ i then
      (some (PyErr.indexError (sceneIndexOutOfRangeMsg i s.scenes.length)), s)
    else
      (none, resetSelf { s with current_scene_index := i })

/-- The `xarray_dask_data` property: on cache miss invoke the plugin's
`_read_delayed`, cache and return. -/
def xarrayDaskData (p : ReaderPlugin) (s : ReaderState) (c : PrimCounts) :
    DataArray × ReaderState × PrimCounts :=
  match s.xarray_dask_data with
  | some a => (a, s, c)
  | none =>
    let a := p.read_delayed s.current_scene_index s.current_resolution_level
    (a, { s with xarray_dask_data := some a },
     { c with delayed := c.delayed + 1 })

/-- The `xarray_data` property: on cache miss invoke the plugin's
`_read_immediate`, cache it, and remake the delayed cache as a new
`xr.DataArray` wrapping `da.from_array` of the just-read in-memory
data with the same dims, coords and attrs. -/
def xarrayData (p : ReaderPlugin) (s : ReaderState) (c : PrimCounts) :
    DataArray × ReaderState × PrimCounts :=
  match s.xarray_data with
  | some a => (a, s, c)
  | none =>
    let a := p.read_immediate s.current_scene_index s.current_resolution_level
    let remade : DataArray :=
      { data := daFromArray a.data, dims := a.dims,
        coords := a.coords, attrs := a.attrs }
    (a, { s with xarray_data := some a, xarray_dask_data := some remade },
     { c with immediate := c.immediate + 1 })

/-- The `dims` property: on cache miss build
`Dimensions(dims=self.xarray_dask_data.dims, shape=self.shape)` (the
`shape` property is the delayed array's shape) and cache it. -/
def dimsProp (p : ReaderPlugin) (s : ReaderState) (c : PrimCounts) :
    Except PyErr Dimensions × ReaderState × PrimCounts :=
  match s.dims with
  | some d => (Except.ok d, s, c)
  | none =>
    match xarrayDaskData p s c with
    | (a, s1, c1) =>
      match Dimensions.make a.dims a.data.shape with
      | Except.ok d => (Except.ok d, { s1 with dims := some d }, c1)
      | Except.error e => (Except.error e, s1, c1)

/-- The `InvalidDimensionOrderingError` message of the mosaic
properties. -/
def noTilesMsg : String :=
  "Cannot create stitched mosaic image for array without tiles available."

/-- The `mosaic_xarray_dask_data` property: raise
`InvalidDimensionOrderingError` when the tile axis is absent from
`self.dims.order`; otherwise on cache miss invoke
`_get_stitched_dask_mosaic`, cache and return. -/
def mosaicXarrayDaskData (p : ReaderPlugin) (s : ReaderState)
    (c : PrimCounts) : Except PyErr DataArray × ReaderState × PrimCounts :=
  match dimsProp p s c with
  | (Except.error e, s1, c1) => (Except.error e, s1, c1)
  | (Except.ok d, s1, c1) =>
    if ¬ d.order.contains DimensionNames.MosaicTile then
      (Except.error (PyErr.invalidDimensionOrderingError noTilesMsg), s1, c1)
    else
      match s1.mosaic_xarray_dask_data with
      | some a => (Except.ok a, s1, c1)
      | none =>
        match p.get_stitched_dask_mosaic s1.current_scene_index
            s1.current_resolution_level with
        | Except.ok a =>
          (Except.ok a, { s1 with mosaic_xarray_dask_data := some a },
           { c1 with stitched_dask := c1.stitched_dask + 1 })
        | Except.error e =>
          (Except.error e, s1,
           { c1 with stitched_dask := c1.stitched_dask + 1 })

/-- The `mosaic_xarray_data` property: same shape as the dask variant,
backed by `_get_stitched_mosaic`. -/
def mosaicXarrayData (p : ReaderPlugin) (s : ReaderState)
    (c : PrimCounts) : Except PyErr DataArray × ReaderState × PrimCounts :=
  match dimsProp p s c with
  | (Except.error e, s1, c1) => (Except.error e, s1, c1)
  | (Except.ok d, s1, c1) =>
    if ¬ d.order.contains DimensionNames.MosaicTile then
      (Except.error (PyErr.invalidDimensionOrderingError noTilesMsg), s1, c1)
    else
      match s1.mosaic_xarray_data with
      | some a => (Except.ok a, s1, c1)
      | none =>
        match p.get_stitched_mosaic s1.current_scene_index
            s1.current_resolution_level with
        | Except.ok a =>
          (Except.ok a, { s1 with mosaic_xarray_data := some a },
           { c1 with stitched := c1.stitched + 1 })
        | Except.error e =>
          (Except.error e, s1, { c1 with stitched := c1.stitched + 1 })

/-- The `mosaic_dask_data` property: `self.mosaic_xarray_dask_data.data`. -/
def mosaicDaskData (p : ReaderPlugin) (s : ReaderState) (c : PrimCounts) :
    Except PyErr Arr × ReaderState × PrimCounts :=
  match mosaicXarrayDaskData p s c with
  | (Except.ok a, s1, c1) => (Except.ok a.data, s1, c1)
  | (Except.error e, s1, c1) => (Except.error e, s1, c1)

/-- The `mosaic_data` property: `self.mosaic_xarray_data.data`. -/
def mosaicData (p : ReaderPlugin) (s : ReaderState) (c : PrimCounts) :
    Except PyErr Arr × ReaderState × PrimCounts :=
  match mosaicXarrayData p s c with
  | (Except.ok a, s1, c1) => (Except.ok a.data, s1, c1)
  | (Except.error e, s1, c1) => (Except.error e, s1, c1)

end Reader

namespace Reader

/-- The base `physical_pixel_sizes` property:
`PhysicalPixelSizes(None, None, None)`. -/
def physicalPixelSizesProp : PhysicalPixelSizes :=
  { Z := none, Y := none, X := none }

/-- The timelapse expression
`image_size_t is not None and image_size_t > 0` of
`EmbeddedMetadata.from_reader` (embedded_metadata.py); the same text
appears at the `Reader.standard_metadata` constructor call site, but
that call never completes (see `standardMetadata`). -/
def timelapseExpr (image_size_t : Option Nat) : Bool :=
  match image_size_t with
  | none => false
  | some t => decide (0 < t)

/-- The `TypeError` raised by the `StandardMetadata(...)` constructor
call when it is handed the keyword `imaging_datetime`, which is not a
field of the dataclass (quotes around the name omitted). -/
def unexpectedKeywordMsg : String :=
  "init got an unexpected keyword argument imaging_datetime"

/-- The `standard_metadata` property of the base `Reader`, as the
source stands.  The property body first resolves `ome` (the base
`ome_metadata` raises `NotImplementedError`, which the try/except
catches, so `ome` is `None`) and reads the per-axis sizes off
`self.dims` — this evaluates the `dims` property, which may itself
raise and may advance the caches — but the `StandardMetadata(...)`
constructor call then always passes the keyword `imaging_datetime=`,
which is not a field of the dataclass (its field is `imaging_date`),
so the call raises `TypeError` unconditionally and the property never
returns a record.  (As staged the failure is even earlier: reader.py
imports `imaging_datetime`, `timelapse_interval` and
`total_time_duration` from `standard_metadata.py`, which defines none
of them, so the module cannot even be imported.)  Consequently the
timelapse expression `image_size_t is not None and image_size_t > 0`
written at that call site is never evaluated into a record; its live
twin is the identical expression in `EmbeddedMetadata.from_reader`. -/
def standardMetadata (p : ReaderPlugin) (s : ReaderState) (c : PrimCounts) :
    Except PyErr StandardMetadata × ReaderState × PrimCounts :=
  match dimsProp p s c with
  | (Except.error e, s1, c1) => (Except.error e, s1, c1)
  | (Except.ok _, s1, c1) =>
    (Except.error (PyErr.typeError unexpectedKeywordMsg), s1, c1)

end Reader

/-- `EmbeddedMetadata.from_reader`: pull the per-axis sizes off the
reader's `dims` (via `getattr(dims, label, None)`), derive `timelapse`
as `image_size_t is not None and image_size_t > 0`, and copy the
reader's physical pixel sizes (the base property yields `None`s). -/
def EmbeddedMetadata.fromReader (p : ReaderPlugin) (s : ReaderState)
    (c : PrimCounts) : Except PyErr EmbeddedMetadataRec × ReaderState × PrimCounts :=
  match Reader.dimsProp p s c with
  | (Except.error e, s1, c1) => (Except.error e, s1, c1)
  | (Except.ok d, s1, c1) =>
    let image_size_t := d.attr DimensionNames.Time
    (Except.ok
      { dimensions_present := some d.order
        image_size_c := d.attr DimensionNames.Channel
        image_size_t := image_size_t
        image_size_x := d.attr DimensionNames.SpatialX
        image_size_y := d.attr DimensionNames.SpatialY
        image_size_z := d.attr DimensionNames.SpatialZ
        mosaic_tile := d.attr DimensionNames.MosaicTile
        timelapse := some (Reader.timelapseExpr image_size_t)
        pixel_size_x := Reader.physicalPixelSizesProp.X
        pixel_size_y := Reader.physicalPixelSizesProp.Y
        pixel_size_z := Reader.physicalPixelSizesProp.Z }, s1, c1)

/-! ## Object identity for `Dimensions` values

`class Dimensions` defines no `__eq__`, so Python `==` on two
`Dimensions` objects falls back to `object.__eq__`: identity
comparison.  Allocation is modelled by an arena of constructed values;
a reference is an index into the arena, and constructing a `Dimensions`
appends its value and returns a fresh reference. -/

/-- A reference to an allocated `Dimensions` object. -/
structure DimensionsRef where
  ref : Nat
  deriving Repr, DecidableEq

/-- Allocate a freshly constructed `Dimensions` object: extend the
arena and hand back a reference to the new slot. -/
def allocDimensions (arena : List Dimensions) (d : Dimensions) :
    List Dimensions × DimensionsRef :=
  (arena ++ [d], { ref := arena.length })

/-- Python `==` on two `Dimensions` references: with no `__eq__` on the
class, this is object identity. -/
def dimensionsPyEq (a b : DimensionsRef) : Bool :=
  a.ref == b.ref

/-! ## Concrete fixtures used by witnesses and counterexamples -/

/-- A concrete `TCZYX`-shaped backing array (time-axis size exactly 1). -/
def arrTCZYX (k : ArrKind) : Arr :=
  { kind := k, shape := [1, 4, 75, 624, 924], values := [3, 1, 4, 1, 5] }

/-- The delayed `TCZYX` data array a concrete plugin returns. -/
def delayedTCZYX : DataArray :=
  { data := arrTCZYX ArrKind.dask, dims := ['T', 'C', 'Z', 'Y', 'X'],
    coords := [], attrs := [] }

/-- The in-memory `TCZYX` data array a concrete plugin returns. -/
def immediateTCZYX : DataArray :=
  { data := arrTCZYX ArrKind.numpy, dims := ['T', 'C', 'Z', 'Y', 'X'],
    coords := [], attrs := [] }

/-- A concrete non-mosaic plugin: the stitch primitives keep their base
`NotImplementedError` behavior. -/
def pluginTCZYX : ReaderPlugin :=
  { read_delayed := fun _ _ => delayedTCZYX
    read_immediate := fun _ _ => immediateTCZYX
    get_stitched_dask_mosaic := fun _ _ => Except.error PyErr.notImplementedError
    get_stitched_mosaic := fun _ _ => Except.error PyErr.notImplementedError }

/-- A freshly constructed two-scene reader state with empty caches. -/
def freshState : ReaderState :=
  { scenes := ["A", "B"], current_scene_index := 0,
    current_resolution_level := 0, xarray_dask_data := none,
    xarray_data := none, mosaic_xarray_dask_data := none,
    mosaic_xarray_data := none, dims := none, metadata := none,
    physical_pixel_sizes := none }

/-- Zeroed primitive-invocation counters. -/
def zeroCounts : PrimCounts :=
  { delayed := 0, immediate := 0, stitched_dask := 0, stitched := 0 }

/-- The `Dimensions` value built from `("TCZYX", (1, 4, 75, 624, 924))`. -/
def dimsTCZYX : Dimensions :=
  { order := ['T', 'C', 'Z', 'Y', 'X'], shape := [1, 4, 75, 624, 924],
    dims_shape := pyDictOfPairs ((['T', 'C', 'Z', 'Y', 'X']).zip
      [1, 4, 75, 624, 924]) }

/-- The `Dimensions` value built from `("MYX", (9, 2, 3))`, whose order
contains the mosaic tile axis. -/
def dimsMYX : Dimensions :=
  { order := ['M', 'Y', 'X'], shape := [9, 2, 3],
    dims_shape := pyDictOfPairs ((['M', 'Y', 'X']).zip [9, 2, 3]) }

/-- A stitched mosaic data array returned by an overriding plugin. -/
def stitchedYX : DataArray :=
  { data := { kind := ArrKind.dask, shape := [6, 9], values := [2, 7] },
    dims := ['Y', 'X'], coords := [], attrs := [] }

/-- A concrete mosaic-capable plugin whose reads carry an `MYX` image
and whose stitch primitives are overridden. -/
def pluginMYX : ReaderPlugin :=
  { read_delayed := fun _ _ =>
      { data := { kind := ArrKind.dask, shape := [9, 2, 3], values := [0] },
        dims := ['M', 'Y', 'X'], coords := [], attrs := [] }
    read_immediate := fun _ _ =>
      { data := { kind := ArrKind.numpy, shape := [9, 2, 3], values := [0] },
        dims := ['M', 'Y', 'X'], coords := [], attrs := [] }
    get_stitched_dask_mosaic := fun _ _ => Except.ok stitchedYX
    get_stitched_mosaic := fun _ _ =>
      Except.ok { stitchedYX with data := { stitchedYX.data with kind := ArrKind.numpy } } }

/-- A reader state whose `dims` cache already holds the `MYX`
dimensions (as after a first data access on `pluginMYX`). -/
def stateMYX : ReaderState :=
  { freshState with dims := some dimsMYX }

/-- A reader state whose `dims` cache already holds the `TCZYX`
dimensions (no mosaic tile axis). -/
def stateTCZYX : ReaderState :=
  { freshState with dims := some dimsTCZYX }

/-- The `Dimensions` record that a successful `Dimensions.__init__`
produces from a string of labels and a shape. -/
def mkDims (dims : List Char) (shape : List Nat) : Dimensions :=
  { order := dims, shape := shape,
    dims_shape := pyDictOfPairs (dims.zip shape) }

/-- Specification-side lookup: the size paired with the LAST occurrence
of a label in the (labels, shape) pairing. -/
def lastPairedSize (dims : List Char) (shape : List Nat) (c : Char) :
    Option Nat :=
  ((dims.zip shape).reverse.find? (fun p => p.1 == c)).map Prod.snd

/-- Specification-side lookup: the size paired with a label in the
(labels, shape) pairing (unambiguous when the labels are distinct). -/
def pairedSize (dims : List Char) (shape : List Nat) (c : Char) : Nat :=
  (((dims.zip shape).find? (fun p => p.1 == c)).map Prod.snd).getD 0

/-- All seven cached derived fields of a reader are absent. -/
def Reader.cachesAbsent (s : ReaderState) : Prop :=
  s.xarray_dask_data = none ∧ s.xarray_data = none ∧
  s.mosaic_xarray_dask_data = none ∧ s.mosaic_xarray_data = none ∧
  s.dims = none ∧ s.metadata = none ∧ s.physical_pixel_sizes = none

/-- A reader state in which every cached derived field is populated (as
after a full read on scene index 0). -/
def cachedState : ReaderState :=
  { freshState with
    xarray_dask_data := some delayedTCZYX
    xarray_data := some immediateTCZYX
    mosaic_xarray_dask_data := some stitchedYX
    mosaic_xarray_data := some stitchedYX
    dims := some dimsTCZYX
    metadata := some ("processed")
    physical_pixel_sizes := some { Z := none, Y := none, X := none } }

/-! ## Lemmas about the Python dict model -/

theorem pyDictGet_cons {α β : Type} [BEq α] (p : α × β) (t : List (α × β))
    (k : α) :
    pyDictGet (p :: t) k = if p.1 == k then some p.2 else pyDictGet t k := by
  cases h : p.1 == k <;> simp [pyDictGet, List.find?, h]

theorem pyDictGet_append {α β : Type} [BEq α] (l1 l2 : List (α × β))
    (k : α) :
    pyDictGet (l1 ++ l2) k = (pyDictGet l1 k).or (pyDictGet l2 k) := by
  unfold pyDictGet
  rw [List.find?_append]
  cases List.find? (fun p => p.1 == k) l1 <;> simp

theorem pyDictGet_map_overwrite {α β : Type} [BEq α] [LawfulBEq α]
    [DecidableEq α] (d : List (α × β)) (k k2 : α) (v : β) :
    pyDictGet (d.map (fun p => if p.1 == k then (k, v) else p)) k2 =
      if k2 = k ∧ d.any (fun p => p.1 == k) then some v
      else pyDictGet d k2 := by
  induction d with
  | nil => simp [pyDictGet]
  | cons p t ih =>
    by_cases hp : p.1 = k
    · have hfp : (if (p.1 == k) = true then (k, v) else p) = (k, v) := by
        simp [hp]
      by_cases hk2 : k2 = k
      · subst hk2
        simp only [List.map_cons, hfp, pyDictGet_cons]
        simp [hp, List.any_cons, beq_iff_eq]
      · have hk2s : ¬ k = k2 := fun h => hk2 h.symm
        simp only [List.map_cons, hfp, pyDictGet_cons]
        rw [ih]
        simp [hk2, hk2s, List.any_cons, beq_iff_eq, hp]
    · have hfp : (if (p.1 == k) = true then (k, v) else p) = p := by
        simp [hp]
      by_cases hpk2 : p.1 = k2
      · have hknk2 : ¬ k2 = k := fun h => hp (hpk2.trans h)
        simp only [List.map_cons, hfp, pyDictGet_cons]
        simp [hpk2, hknk2, beq_iff_eq]
      · simp only [List.map_cons, hfp, pyDictGet_cons]
        rw [ih]
        have hb : (p.1 == k) = false := by
          simp [beq_iff_eq, hp]
        have hb2 : (p.1 == k2) = false := by
          simp [beq_iff_eq, hpk2]
        simp only [List.any_cons, hb, hb2, Bool.false_or,
          Bool.false_eq_true, if_false]

theorem pyDictGet_set {α β : Type} [BEq α] [LawfulBEq α] [DecidableEq α]
    (d : List (α × β)) (k k2 : α) (v : β) :
    pyDictGet (pyDictSet d k v) k2 =
      if k2 = k then some v else pyDictGet d k2 := by
  unfold pyDictSet
  by_cases hAny : (d.any fun p => p.1 == k) = true
  · rw [if_pos hAny, pyDictGet_map_overwrite]
    by_cases hk2 : k2 = k
    · simp [hk2, hAny]
    · simp [hk2]
  · rw [if_neg hAny, pyDictGet_append]
    by_cases hk2 : k2 = k
    · subst hk2
      have hnone : pyDictGet d k2 = none := by
        unfold pyDictGet
        rw [List.find?_eq_none.mpr]
        · rfl
        · intro x hx hxk
          exact hAny (List.any_eq_true.mpr ⟨x, hx, hxk⟩)
      rw [hnone]
      simp [pyDictGet, List.find?]
    · have hb : (k == k2) = false := by
        simp [beq_iff_eq]
        exact fun h => hk2 h.symm
      simp [pyDictGet, List.find?, hb, hk2]

theorem pyDictGet_foldl_set {α β : Type} [BEq α] [LawfulBEq α]
    [DecidableEq α] (l : List (α × β)) (acc : List (α × β)) (k : α) :
    pyDictGet (l.foldl (fun a p => pyDictSet a p.1 p.2) acc) k =
      ((l.reverse.find? (fun p => p.1 == k)).map Prod.snd).or
        (pyDictGet acc k) := by
  induction l generalizing acc with
  | nil => simp
  | cons p t ih =>
    rw [List.foldl_cons, ih, List.reverse_cons, List.find?_append]
    cases hfind : List.find? (fun q => q.1 == k) t.reverse with
    | some q => simp
    | none =>
      simp only [Option.none_or, Option.map_none', List.find?]
      rw [pyDictGet_set]
      by_cases hpk : p.1 = k
      · have : (p.1 == k) = true := by simp [hpk]
        simp [this, hpk]
      · have hb : (p.1 == k) = false := by simp [hpk]
        have hks : ¬ k = p.1 := fun h => hpk h.symm
        simp [hb, hks]

theorem pyDictGet_ofPairs {α β : Type} [BEq α] [LawfulBEq α]
    [DecidableEq α] (l : List (α × β)) (k : α) :
    pyDictGet (pyDictOfPairs l) k =
      (l.reverse.find? (fun p => p.1 == k)).map Prod.snd := by
  unfold pyDictOfPairs
  rw [pyDictGet_foldl_set]
  simp [pyDictGet]

theorem pyDictSet_length {α β : Type} [BEq α] (d : List (α × β)) (k : α)
    (v : β) :
    (pyDictSet d k v).length =
      if (d.any fun p => p.1 == k) = true then d.length
      else d.length + 1 := by
  unfold pyDictSet
  by_cases hAny : (d.any fun p => p.1 == k) = true
  · rw [if_pos hAny, if_pos hAny, List.length_map]
  · rw [if_neg hAny, if_neg hAny, List.length_append]
    rfl

theorem pyDictSet_length_le {α β : Type} [BEq α] (d : List (α × β))
    (k : α) (v : β) : (pyDictSet d k v).length ≤ d.length + 1 := by
  rw [pyDictSet_length]
  by_cases hAny : (d.any fun p => p.1 == k) = true
  · rw [if_pos hAny]
    omega
  · rw [if_neg hAny]

theorem pyDictSet_any_mono {α β : Type} [BEq α] [LawfulBEq α]
    (d : List (α × β)) (k k2 : α) (v : β)
    (h : (d.any fun p => p.1 == k2) = true) :
    ((pyDictSet d k v).any fun p => p.1 == k2) = true := by
  unfold pyDictSet
  by_cases hAny : (d.any fun p => p.1 == k) = true
  · rw [if_pos hAny, List.any_eq_true]
    obtain ⟨x, hx, hxk2⟩ := List.any_eq_true.mp h
    refine ⟨if (x.1 == k) = true then (k, v) else x,
      List.mem_map.mpr ⟨x, hx, rfl⟩, ?_⟩
    by_cases hxk : (x.1 == k) = true
    · have h1 : x.1 = k := by simpa using hxk
      have h2 : x.1 = k2 := by simpa using hxk2
      have hkk2 : k = k2 := h1.symm.trans h2
      subst hkk2
      simp [hxk]
    · simpa [hxk] using hxk2
  · rw [if_neg hAny, List.any_append]
    simp [h]

theorem pyDictSet_any_self {α β : Type} [BEq α] [LawfulBEq α]
    (d : List (α × β)) (k : α) (v : β) :
    ((pyDictSet d k v).any fun p => p.1 == k) = true := by
  unfold pyDictSet
  by_cases hAny : (d.any fun p => p.1 == k) = true
  · rw [if_pos hAny, List.any_eq_true]
    obtain ⟨x, hx, hxk⟩ := List.any_eq_true.mp hAny
    exact ⟨if (x.1 == k) = true then (k, v) else x,
      List.mem_map.mpr ⟨x, hx, rfl⟩, by simp [hxk]⟩
  · rw [if_neg hAny, List.any_append]
    simp

theorem foldl_set_length_le {α β : Type} [BEq α] (l acc : List (α × β)) :
    (l.foldl (fun a p => pyDictSet a p.1 p.2) acc).length ≤
      acc.length + l.length := by
  induction l generalizing acc with
  | nil => simp
  | cons p t ih =>
    rw [List.foldl_cons]
    calc (t.foldl (fun a p => pyDictSet a p.1 p.2)
            (pyDictSet acc p.1 p.2)).length
        ≤ (pyDictSet acc p.1 p.2).length + t.length := ih _
      _ ≤ (acc.length + 1) + t.length := by
          exact Nat.add_le_add_right (pyDictSet_length_le acc p.1 p.2) _
      _ = acc.length + (p :: t).length := by
          simp
          omega

theorem foldl_set_length_lt_of_present {α β : Type} [BEq α] [LawfulBEq α]
    (t : List (α × β)) (c : α) :
    ∀ acc : List (α × β), c ∈ t.map Prod.fst →
      (acc.any fun p => p.1 == c) = true →
      (t.foldl (fun a p => pyDictSet a p.1 p.2) acc).length <
        acc.length + t.length := by
  induction t with
  | nil =>
    intro acc hc _
    simp at hc
  | cons q t2 ih =>
    intro acc hc hacc
    rw [List.foldl_cons]
    by_cases hq : (acc.any fun p => p.1 == q.1) = true
    · have hlen : (pyDictSet acc q.1 q.2).length = acc.length := by
        rw [pyDictSet_length, if_pos hq]
      calc (t2.foldl (fun a p => pyDictSet a p.1 p.2)
              (pyDictSet acc q.1 q.2)).length
          ≤ (pyDictSet acc q.1 q.2).length + t2.length :=
            foldl_set_length_le _ _
        _ = acc.length + t2.length := by rw [hlen]
        _ < acc.length + (q :: t2).length := by simp
    · have hqc : ¬ c = q.1 := by
        intro h
        rw [show (fun p => p.1 == q.1) = (fun p : α × β => p.1 == c) from
          by rw [h]] at hq
        exact hq hacc
      have hc2 : c ∈ t2.map Prod.fst := by
        rw [List.map_cons] at hc
        rcases List.mem_cons.mp hc with h1 | h1
        · exact absurd h1 hqc
        · exact h1
      have hacc2 : ((pyDictSet acc q.1 q.2).any fun p => p.1 == c) = true :=
        pyDictSet_any_mono _ _ _ _ hacc
      calc (t2.foldl (fun a p => pyDictSet a p.1 p.2)
              (pyDictSet acc q.1 q.2)).length
          < (pyDictSet acc q.1 q.2).length + t2.length := ih _ hc2 hacc2
        _ ≤ (acc.length + 1) + t2.length :=
            Nat.add_le_add_right (pyDictSet_length_le acc q.1 q.2) _
        _ = acc.length + (q :: t2).length := by
            simp
            omega

theorem foldl_set_length_lt_of_dup {α β : Type} [BEq α] [LawfulBEq α]
    (l : List (α × β)) :
    ∀ acc : List (α × β), ¬ (l.map Prod.fst).Nodup →
      (l.foldl (fun a p => pyDictSet a p.1 p.2) acc).length <
        acc.length + l.length := by
  induction l with
  | nil =>
    intro acc h
    exact absurd List.nodup_nil h
  | cons p t ih =>
    intro acc h
    rw [List.map_cons, List.nodup_cons] at h
    rw [List.foldl_cons]
    rcases not_and_or.mp h with h1 | h2
    · have hmem : p.1 ∈ t.map Prod.fst := not_not.mp h1
      calc (t.foldl (fun a p => pyDictSet a p.1 p.2)
              (pyDictSet acc p.1 p.2)).length
          < (pyDictSet acc p.1 p.2).length + t.length :=
            foldl_set_length_lt_of_present t p.1 _ hmem
              (pyDictSet_any_self _ _ _)
        _ ≤ (acc.length + 1) + t.length :=
            Nat.add_le_add_right (pyDictSet_length_le acc p.1 p.2) _
        _ = acc.length + (p :: t).length := by
            simp
            omega
    · calc (t.foldl (fun a p => pyDictSet a p.1 p.2)
              (pyDictSet acc p.1 p.2)).length
          < (pyDictSet acc p.1 p.2).length + t.length := ih _ h2
        _ ≤ (acc.length + 1) + t.length :=
            Nat.add_le_add_right (pyDictSet_length_le acc p.1 p.2) _
        _ = acc.length + (p :: t).length := by
            simp
            omega

theorem pyDictOfPairs_zip_length_lt (dims : List Char) (shape : List Nat)
    (hlen : dims.length = shape.length) (hdup : ¬ dims.Nodup) :
    (pyDictOfPairs (dims.zip shape)).length < dims.length := by
  have hmap : (dims.zip shape).map Prod.fst = dims :=
    List.map_fst_zip _ _ (le_of_eq hlen)
  have hlt := foldl_set_length_lt_of_dup (dims.zip shape) []
    (by rw [hmap]; exact hdup)
  unfold pyDictOfPairs
  have hzlen : (dims.zip shape).length = dims.length := by
    rw [List.length_zip, hlen]
    exact min_self _
  simpa [hzlen] using hlt

theorem find?_reverse_eq_of_nodup_keys {α β : Type} [BEq α] [LawfulBEq α]
    (l : List (α × β)) (k : α) (h : (l.map Prod.fst).Nodup) :
    l.reverse.find? (fun p => p.1 == k) = l.find? (fun p => p.1 == k) := by
  induction l with
  | nil => simp
  | cons p t ih =>
    rw [List.map_cons, List.nodup_cons] at h
    rw [List.reverse_cons, List.find?_append]
    by_cases hpk : (p.1 == k) = true
    · have hp1 : p.1 = k := by simpa using hpk
      have hnone : t.reverse.find? (fun q => q.1 == k) = none := by
        rw [List.find?_eq_none]
        intro x hx hxk
        have hx2 : x ∈ t := List.mem_reverse.mp hx
        have hxk2 : x.1 = k := by simpa using hxk
        exact h.1 (List.mem_map.mpr ⟨x, hx2, hxk2.trans hp1.symm⟩)
      rw [hnone]
      simp [List.find?, hpk]
    · rw [ih h.2]
      simp [List.find?, hpk]

theorem pyDictGet_ofPairs_zip_of_nodup (dims : List Char)
    (shape : List Nat) (k : Char) (hlen : dims.length = shape.length)
    (hnd : dims.Nodup) (hk : k ∈ dims) :
    pyDictGet (pyDictOfPairs (dims.zip shape)) k =
      some (pairedSize dims shape k) := by
  have hmap : (dims.zip shape).map Prod.fst = dims :=
    List.map_fst_zip _ _ (le_of_eq hlen)
  rw [pyDictGet_ofPairs, find?_reverse_eq_of_nodup_keys _ _
    (by rw [hmap]; exact hnd)]
  cases hfind : (dims.zip shape).find? (fun p => p.1 == k) with
  | none =>
    exfalso
    rw [List.find?_eq_none] at hfind
    obtain ⟨x, hx, hxk⟩ := List.mem_map.mp (by rw [hmap]; exact hk :
      k ∈ (dims.zip shape).map Prod.fst)
    exact hfind x hx (by simp [hxk])
  | some q =>
    unfold pairedSize
    rw [hfind]
    rfl

theorem pyDictLookups_eq_map (d : List (Char × Nat)) (key : List Char)
    (g : Char → Nat) (h : ∀ k ∈ key, pyDictGet d k = some (g k)) :
    pyDictLookups d key = Except.ok (key.map g) := by
  induction key with
  | nil => rfl
  | cons k ks ih =>
    have hk := h k (List.mem_cons_self k ks)
    have hks := ih (fun x hx => h x (List.mem_cons_of_mem k hx))
    unfold pyDictLookups
    rw [hk, hks]
    rfl

/-! ## Claim theorems -/

/-- C1: the spec derives the timelapse flag as true iff the time-axis
size is present and strictly greater than 1 (size exactly 1 is not a
timelapse).  On the code, `EmbeddedMetadata.from_reader` computes
`image_size_t is not None and image_size_t > 0`: evaluated on a reader
whose image is `TCZYX`-shaped with time-axis size exactly 1 it derives
a record with `timelapse = True`, diverging from the claim; and the
claim's other derivation, `Reader.standard_metadata`, never produces a
record at all — its constructor call raises `TypeError` on the
nonexistent keyword `imaging_datetime`. -/
theorem C1_timelapse_true_at_time_size_one :
    Except.map EmbeddedMetadataRec.image_size_t
        (EmbeddedMetadata.fromReader pluginTCZYX freshState zeroCounts).1 =
      Except.ok (some 1) ∧
    Except.map EmbeddedMetadataRec.timelapse
        (EmbeddedMetadata.fromReader pluginTCZYX freshState zeroCounts).1 =
      Except.ok (some true) ∧
    (Reader.standardMetadata pluginTCZYX freshState zeroCounts).1 =
      Except.error (PyErr.typeError Reader.unexpectedKeywordMsg) := by
  refine ⟨?_, ?_, ?_⟩ <;> rfl

/-- C2: for every reader, switching to a valid scene different from the
current one (by id or by index) succeeds and leaves every one of the
seven cached derived fields absent immediately after the call, while
switching to the current scene (by id or by index) is a no-op that
returns the state itself, identity preserved. -/
theorem C2_setScene_invalidates_or_noop (s : ReaderState) :
    (∀ t cur : String, Reader.currentScene s = Except.ok cur →
       t ∈ s.scenes → t ≠ cur →
       (Reader.setScene s (Reader.SceneId.str t)).1 = none ∧
       Reader.cachesAbsent (Reader.setScene s (Reader.SceneId.str t)).2) ∧
    (∀ i : Int, 0 ≤ i → i < (s.scenes.length : Int) →
       i ≠ s.current_scene_index →
       (Reader.setScene s (Reader.SceneId.idx i)).1 = none ∧
       Reader.cachesAbsent (Reader.setScene s (Reader.SceneId.idx i)).2) ∧
    (∀ cur : String, Reader.currentScene s = Except.ok cur →
       Reader.setScene s (Reader.SceneId.str cur) = (none, s)) ∧
    Reader.setScene s (Reader.SceneId.idx s.current_scene_index) =
      (none, s) := by
  refine ⟨?_, ?_, ?_, ?_⟩
  · intro t cur hcur ht hne
    simp only [Reader.setScene, hcur]
    rw [if_neg hne, if_neg (not_not_intro ht)]
    exact ⟨rfl, by simp [Reader.resetSelf, Reader.cachesAbsent]⟩
  · intro i h0 hlt hne
    simp only [Reader.setScene]
    rw [if_neg hne, if_neg (not_le.mpr hlt)]
    exact ⟨rfl, by simp [Reader.resetSelf, Reader.cachesAbsent]⟩
  · intro cur hcur
    simp [Reader.setScene, hcur]
  · simp [Reader.setScene]

/-- C3: when an eager-view request materializes the image, the lazy
cache is rebuilt in the same step from the materialized array, so a
subsequent lazy-view request returns data equal to the eager result (a
dask wrapping of the very same backing payload, with the same dims,
coords and attrs) and the plugin's delayed-read primitive is never
invoked by either call. -/
theorem C3_eager_upgrades_lazy (p : ReaderPlugin) (s : ReaderState)
    (c : PrimCounts) (h : s.xarray_data = none) :
    (Reader.xarrayDaskData p (Reader.xarrayData p s c).2.1
        (Reader.xarrayData p s c).2.2).2.2.delayed = c.delayed ∧
    (Reader.xarrayDaskData p (Reader.xarrayData p s c).2.1
        (Reader.xarrayData p s c).2.2).1.data =
      daFromArray (Reader.xarrayData p s c).1.data ∧
    (Reader.xarrayDaskData p (Reader.xarrayData p s c).2.1
        (Reader.xarrayData p s c).2.2).1.data.values =
      (Reader.xarrayData p s c).1.data.values ∧
    (Reader.xarrayDaskData p (Reader.xarrayData p s c).2.1
        (Reader.xarrayData p s c).2.2).1.data.shape =
      (Reader.xarrayData p s c).1.data.shape ∧
    (Reader.xarrayDaskData p (Reader.xarrayData p s c).2.1
        (Reader.xarrayData p s c).2.2).1.dims =
      (Reader.xarrayData p s c).1.dims ∧
    (Reader.xarrayDaskData p (Reader.xarrayData p s c).2.1
        (Reader.xarrayData p s c).2.2).1.coords =
      (Reader.xarrayData p s c).1.coords ∧
    (Reader.xarrayDaskData p (Reader.xarrayData p s c).2.1
        (Reader.xarrayData p s c).2.2).1.attrs =
      (Reader.xarrayData p s c).1.attrs ∧
    (Reader.xarrayData p s c).2.1.xarray_dask_data =
      some (Reader.xarrayDaskData p (Reader.xarrayData p s c).2.1
        (Reader.xarrayData p s c).2.2).1 := by
  simp [Reader.xarrayData, Reader.xarrayDaskData, h, daFromArray]

/-- C3 witness: the upgrade law evaluated on a concrete plugin and a
fresh two-scene reader state. -/
theorem C3_eager_upgrades_lazy_witness :
    freshState.xarray_data = none ∧
    ((Reader.xarrayDaskData pluginTCZYX
        (Reader.xarrayData pluginTCZYX freshState zeroCounts).2.1
        (Reader.xarrayData pluginTCZYX freshState zeroCounts).2.2).2.2.delayed =
      zeroCounts.delayed ∧
     (Reader.xarrayDaskData pluginTCZYX
        (Reader.xarrayData pluginTCZYX freshState zeroCounts).2.1
        (Reader.xarrayData pluginTCZYX freshState zeroCounts).2.2).1.data =
      daFromArray (Reader.xarrayData pluginTCZYX freshState zeroCounts).1.data ∧
     (Reader.xarrayDaskData pluginTCZYX
        (Reader.xarrayData pluginTCZYX freshState zeroCounts).2.1
        (Reader.xarrayData pluginTCZYX freshState zeroCounts).2.2).1.data.values =
      (Reader.xarrayData pluginTCZYX freshState zeroCounts).1.data.values ∧
     (Reader.xarrayDaskData pluginTCZYX
        (Reader.xarrayData pluginTCZYX freshState zeroCounts).2.1
        (Reader.xarrayData pluginTCZYX freshState zeroCounts).2.2).1.data.shape =
      (Reader.xarrayData pluginTCZYX freshState zeroCounts).1.data.shape ∧
     (Reader.xarrayDaskData pluginTCZYX
        (Reader.xarrayData pluginTCZYX freshState zeroCounts).2.1
        (Reader.xarrayData pluginTCZYX freshState zeroCounts).2.2).1.dims =
      (Reader.xarrayData pluginTCZYX freshState zeroCounts).1.dims ∧
     (Reader.xarrayDaskData pluginTCZYX
        (Reader.xarrayData pluginTCZYX freshState zeroCounts).2.1
        (Reader.xarrayData pluginTCZYX freshState zeroCounts).2.2).1.coords =
      (Reader.xarrayData pluginTCZYX freshState zeroCounts).1.coords ∧
     (Reader.xarrayDaskData pluginTCZYX
        (Reader.xarrayData pluginTCZYX freshState zeroCounts).2.1
        (Reader.xarrayData pluginTCZYX freshState zeroCounts).2.2).1.attrs =
      (Reader.xarrayData pluginTCZYX freshState zeroCounts).1.attrs ∧
     (Reader.xarrayData pluginTCZYX freshState zeroCounts).2.1.xarray_dask_data =
      some (Reader.xarrayDaskData pluginTCZYX
        (Reader.xarrayData pluginTCZYX freshState zeroCounts).2.1
        (Reader.xarrayData pluginTCZYX freshState zeroCounts).2.2).1) :=
  ⟨rfl, C3_eager_upgrades_lazy pluginTCZYX freshState zeroCounts rfl⟩

/-- C4: an integer scene index at least the number of scenes (and
different from the current index) makes set_scene fail with the
scene-index-out-of-range IndexError, and the whole reader state is
returned unchanged by the failed call. -/
theorem C4_setScene_index_out_of_range (s : ReaderState) (i : Int)
    (hge : (s.scenes.length : Int) ≤ i)
    (hne : i ≠ s.current_scene_index) :
    Reader.setScene s (Reader.SceneId.idx i) =
      (some (PyErr.indexError
        (Reader.sceneIndexOutOfRangeMsg i s.scenes.length)), s) := by
  simp only [Reader.setScene]
  rw [if_neg hne, if_pos hge]

/-- C4 witness: a fully cached two-scene reader rejects index 2 with
the out-of-range error and is returned untouched. -/
theorem C4_setScene_index_out_of_range_witness :
    ((cachedState.scenes.length : Int) ≤ 2) ∧
    ((2 : Int) ≠ cachedState.current_scene_index) ∧
    Reader.setScene cachedState (Reader.SceneId.idx 2) =
      (some (PyErr.indexError
        (Reader.sceneIndexOutOfRangeMsg 2 cachedState.scenes.length)),
       cachedState) :=
  ⟨by decide, by decide,
   C4_setScene_index_out_of_range cachedState 2 (by decide) (by decide)⟩

/-- C5 counterexample: two `Dimensions` objects constructed from the
identical `("TCZYX", (1, 4, 75, 624, 924))` input occupy two distinct
arena slots holding the same value, yet Python `==` (identity, since
the class defines no `__eq__`) compares them unequal — refuting the
claim that equal order and shape imply equality. -/
theorem C5_counterexample :
    dimensionsPyEq (allocDimensions [] dimsTCZYX).2
        (allocDimensions (allocDimensions [] dimsTCZYX).1 dimsTCZYX).2 =
      false ∧
    (allocDimensions (allocDimensions [] dimsTCZYX).1 dimsTCZYX).1 =
      [dimsTCZYX, dimsTCZYX] :=
  ⟨rfl, rfl⟩

/-- C5 (amended): `Dimensions` defines no equality of its own, so two
`Dimensions` values compare equal exactly when they are the same object
(reference identity); in particular two objects separately constructed
from identical (labels, shape) inputs never compare equal, even though
the two stored values (order and shape included) coincide. -/
theorem C5_equality_is_identity (arena : List Dimensions)
    (d : Dimensions) (a b : DimensionsRef) :
    (dimensionsPyEq a b = true ↔ a = b) ∧
    dimensionsPyEq (allocDimensions arena d).2
        (allocDimensions (allocDimensions arena d).1 d).2 = false ∧
    (allocDimensions (allocDimensions arena d).1 d).1 =
      arena ++ [d, d] := by
  refine ⟨⟨fun h => ?_, fun h => ?_⟩, ?_, ?_⟩
  · cases a
    cases b
    simp only [dimensionsPyEq] at h
    have heq := beq_iff_eq.mp h
    simp [heq]
  · subst h
    simp [dimensionsPyEq]
  · simp only [allocDimensions, dimensionsPyEq, List.length_append,
      List.length_cons, List.length_nil]
    simp [Nat.beq_eq_true_eq]
  · simp [allocDimensions]

/-- C6: on a `Dimensions` value with distinct labels, a multi-label
lookup returns the tuple of paired sizes in the requested order when
every label is present, and otherwise fails with an IndexError whose
message lists every missing label at once, joined in request order. -/
theorem C6_multi_label_lookup (dims : List Char) (shape : List Nat)
    (key : List Char) (hlen : dims.length = shape.length)
    (hnd : dims.Nodup) :
    ((∀ k ∈ key, k ∈ dims) →
      Dimensions.getItemSeq (mkDims dims shape) key =
        Except.ok (key.map (pairedSize dims shape))) ∧
    (key.filter (fun k => ¬ dims.contains k) ≠ [] →
      Dimensions.getItemSeq (mkDims dims shape) key =
        Except.error (PyErr.indexError
          (String.intercalate (", ")
            ((key.filter (fun k => ¬ dims.contains k)).map Char.toString)
            ++ " not in " ++ String.mk dims))) := by
  constructor
  · intro hall
    have hfilter : key.filter
        (fun k => ¬ (mkDims dims shape).order.contains k) = [] := by
      rw [List.filter_eq_nil_iff]
      intro k hk
      simp [mkDims]
      exact hall k hk
    unfold Dimensions.getItemSeq
    rw [hfilter]
    simp only [List.isEmpty_nil, if_true]
    exact pyDictLookups_eq_map _ _ _ (fun k hk =>
      pyDictGet_ofPairs_zip_of_nodup dims shape k hlen hnd (hall k hk))
  · intro hne
    unfold Dimensions.getItemSeq
    rw [if_neg]
    rfl
    intro hempty
    exact hne (List.isEmpty_iff.mp hempty)

/-- C6 witness: the multi-label lookup evaluated on
`Dimensions("TCZYX", (1, 4, 75, 624, 924))`: the key TX yields
(1, 924), and the key BQ fails listing both B and Q. -/
theorem C6_multi_label_lookup_witness :
    List.Nodup ['T', 'C', 'Z', 'Y', 'X'] ∧
    Dimensions.getItemSeq
        (mkDims ['T', 'C', 'Z', 'Y', 'X'] [1, 4, 75, 624, 924])
        ['T', 'X'] =
      Except.ok (['T', 'X'].map
        (pairedSize ['T', 'C', 'Z', 'Y', 'X'] [1, 4, 75, 624, 924])) ∧
    (['T', 'X'].map
        (pairedSize ['T', 'C', 'Z', 'Y', 'X'] [1, 4, 75, 624, 924])) =
      [1, 924] ∧
    Dimensions.getItemSeq
        (mkDims ['T', 'C', 'Z', 'Y', 'X'] [1, 4, 75, 624, 924])
        ['B', 'Q'] =
      Except.error (PyErr.indexError
        (String.intercalate (", ")
          ((['B', 'Q'].filter
            (fun k => ¬ (['T', 'C', 'Z', 'Y', 'X']).contains k)).map
              Char.toString)
          ++ " not in " ++ String.mk ['T', 'C', 'Z', 'Y', 'X'])) :=
  ⟨by decide,
   (C6_multi_label_lookup ['T', 'C', 'Z', 'Y', 'X'] [1, 4, 75, 624, 924]
     ['T', 'X'] (by decide) (by decide)).1 (by decide),
   by decide,
   (C6_multi_label_lookup ['T', 'C', 'Z', 'Y', 'X'] [1, 4, 75, 624, 924]
     ['B', 'Q'] (by decide) (by decide)).2 (by decide)⟩

/-- C7 counterexample: `StandardMetadata` is a plain dataclass, so
assigning the out-of-schema attribute name foo on one of its instances
silently succeeds (storing it in the instance dict) instead of failing
with the unknown-field error the claim requires. -/
theorem C7_counterexample :
    StandardMetadata.setAttr ([] : List (String × Nat)) ("foo") 3 =
      Except.ok [(("foo"), 3)] :=
  rfl

/-- C7 (amended): only `EmbeddedMetadata` enforces the closed field
schema: assigning any attribute name outside its precomputed
`_allowed_fields` fails with `AttributeError` and an allowed name is
stored; `StandardMetadata`, a plain dataclass with no `__setattr__`
override, unconditionally accepts and stores any attribute name. -/
theorem C7_only_embedded_enforces_schema {α : Type}
    (inst : List (String × α)) (name : String) (v : α) :
    (¬ EmbeddedMetadata.allowed_fields.contains name →
      EmbeddedMetadata.setAttr inst name v =
        Except.error (PyErr.attributeError
          ("Cannot set attribute " ++ name
            ++ ". Only predefined fields are allowed."))) ∧
    (EmbeddedMetadata.allowed_fields.contains name →
      ∃ out, EmbeddedMetadata.setAttr inst name v = Except.ok out) ∧
    StandardMetadata.setAttr inst name v =
      Except.ok (pyDictSet inst name v) := by
  refine ⟨?_, ?_, rfl⟩
  · intro hname
    unfold EmbeddedMetadata.setAttr
    rw [if_pos hname]
  · intro hname
    unfold EmbeddedMetadata.setAttr
    rw [if_neg (not_not_intro hname)]
    by_cases hf : EmbeddedMetadata.field_names.contains name
    · rw [if_pos hf]
      exact ⟨_, rfl⟩
    · rw [if_neg hf]
      exact ⟨_, rfl⟩

/-- C8: when the current Dimensions order lacks the mosaic tile axis M,
each of the four mosaic views fails with
`InvalidDimensionOrderingError`; when M is present, the two backing
mosaic properties proceed to the corresponding stitch primitive (its
result is returned and the primitive is invoked once). -/
theorem C8_mosaic_requires_tile_axis (p : ReaderPlugin) (s : ReaderState)
    (c : PrimCounts) (d : Dimensions) (hd : s.dims = some d) :
    (¬ d.order.contains DimensionNames.MosaicTile →
      (Reader.mosaicXarrayDaskData p s c).1 =
        Except.error (PyErr.invalidDimensionOrderingError Reader.noTilesMsg) ∧
      (Reader.mosaicXarrayData p s c).1 =
        Except.error (PyErr.invalidDimensionOrderingError Reader.noTilesMsg) ∧
      (Reader.mosaicDaskData p s c).1 =
        Except.error (PyErr.invalidDimensionOrderingError Reader.noTilesMsg) ∧
      (Reader.mosaicData p s c).1 =
        Except.error (PyErr.invalidDimensionOrderingError Reader.noTilesMsg)) ∧
    (d.order.contains DimensionNames.MosaicTile →
      (s.mosaic_xarray_dask_data = none →
        (Reader.mosaicXarrayDaskData p s c).1 =
          p.get_stitched_dask_mosaic s.current_scene_index
            s.current_resolution_level ∧
        (Reader.mosaicXarrayDaskData p s c).2.2.stitched_dask =
          c.stitched_dask + 1) ∧
      (s.mosaic_xarray_data = none →
        (Reader.mosaicXarrayData p s c).1 =
          p.get_stitched_mosaic s.current_scene_index
            s.current_resolution_level ∧
        (Reader.mosaicXarrayData p s c).2.2.stitched = c.stitched + 1)) := by
  constructor
  · intro hM
    have hM2 : DimensionNames.MosaicTile ∉ d.order := by simpa using hM
    have h1 : Reader.mosaicXarrayDaskData p s c =
        (Except.error (PyErr.invalidDimensionOrderingError Reader.noTilesMsg),
         s, c) := by
      simp [Reader.mosaicXarrayDaskData, Reader.dimsProp, hd, hM2]
    have h2 : Reader.mosaicXarrayData p s c =
        (Except.error (PyErr.invalidDimensionOrderingError Reader.noTilesMsg),
         s, c) := by
      simp [Reader.mosaicXarrayData, Reader.dimsProp, hd, hM2]
    refine ⟨by rw [h1], by rw [h2], ?_, ?_⟩
    · simp [Reader.mosaicDaskData, h1]
    · simp [Reader.mosaicData, h2]
  · intro hM
    have hM2 : DimensionNames.MosaicTile ∈ d.order := by simpa using hM
    constructor
    · intro hcache
      cases hp : p.get_stitched_dask_mosaic s.current_scene_index
          s.current_resolution_level with
      | ok a =>
        simp [Reader.mosaicXarrayDaskData, Reader.dimsProp, hd, hM2,
          hcache, hp]
      | error e =>
        simp [Reader.mosaicXarrayDaskData, Reader.dimsProp, hd, hM2,
          hcache, hp]
    · intro hcache
      cases hp : p.get_stitched_mosaic s.current_scene_index
          s.current_resolution_level with
      | ok a =>
        simp [Reader.mosaicXarrayData, Reader.dimsProp, hd, hM2, hcache, hp]
      | error e =>
        simp [Reader.mosaicXarrayData, Reader.dimsProp, hd, hM2, hcache, hp]

/-- C8 witness: a reader on a `TCZYX` image rejects `mosaic_data` with
the invalid-dimension-ordering error, and a reader on an `MYX` image
with an overridden stitch primitive reaches that primitive once. -/
theorem C8_mosaic_requires_tile_axis_witness :
    stateTCZYX.dims = some dimsTCZYX ∧
    (¬ dimsTCZYX.order.contains DimensionNames.MosaicTile) ∧
    (Reader.mosaicData pluginTCZYX stateTCZYX zeroCounts).1 =
      Except.error (PyErr.invalidDimensionOrderingError Reader.noTilesMsg) ∧
    stateMYX.dims = some dimsMYX ∧
    dimsMYX.order.contains DimensionNames.MosaicTile = true ∧
    (Reader.mosaicXarrayDaskData pluginMYX stateMYX zeroCounts).1 =
      pluginMYX.get_stitched_dask_mosaic stateMYX.current_scene_index
        stateMYX.current_resolution_level ∧
    (Reader.mosaicXarrayDaskData pluginMYX stateMYX
        zeroCounts).2.2.stitched_dask = zeroCounts.stitched_dask + 1 :=
  ⟨rfl, by decide,
   ((C8_mosaic_requires_tile_axis pluginTCZYX stateTCZYX zeroCounts
     dimsTCZYX rfl).1 (by decide)).2.2.2,
   rfl, by decide,
   (((C8_mosaic_requires_tile_axis pluginMYX stateMYX zeroCounts
     dimsMYX rfl).2 (by decide)).1 rfl).1,
   (((C8_mosaic_requires_tile_axis pluginMYX stateMYX zeroCounts
     dimsMYX rfl).2 (by decide)).1 rfl).2⟩

/-- C9 counterexample: with two scenes and current index 0, the call
`set_scene(-3)` is accepted (no error, caches reset, index set to -3),
but `current_scene` then raises IndexError instead of resolving to a
scene via from-the-end indexing, refuting the claim's universally
quantified resolution clause. -/
theorem C9_counterexample :
    (Reader.setScene cachedState (Reader.SceneId.idx (-3))).1 = none ∧
    (Reader.setScene cachedState
      (Reader.SceneId.idx (-3))).2.current_scene_index = -3 ∧
    Reader.currentScene
        (Reader.setScene cachedState (Reader.SceneId.idx (-3))).2 =
      Except.error (PyErr.indexError ("tuple index out of range")) := by
  refine ⟨rfl, rfl, rfl⟩

/-- C9 (amended): every negative integer index n different from the
current one is accepted by set_scene without error: the scene index is
set to the negative value n (violating the documented bounds
invariant) and all caches are invalidated; `current_scene` then
resolves via Python from-the-end indexing to the scene at position
len(scenes) + n whenever n is at least -len(scenes), and raises
IndexError when n is below -len(scenes). -/
theorem C9_negative_index_accepted (s : ReaderState) (n : Int)
    (hneg : n < 0) (hne : n ≠ s.current_scene_index) :
    Reader.setScene s (Reader.SceneId.idx n) =
      (none, Reader.resetSelf { s with current_scene_index := n }) ∧
    (Reader.setScene s (Reader.SceneId.idx n)).2.current_scene_index = n ∧
    (Reader.setScene s (Reader.SceneId.idx n)).2.current_scene_index < 0 ∧
    Reader.cachesAbsent (Reader.setScene s (Reader.SceneId.idx n)).2 ∧
    (-(s.scenes.length : Int) ≤ n →
      Reader.currentScene
          (Reader.setScene s (Reader.SceneId.idx n)).2 =
        Except.ok (s.scenes.getD
          ((n + (s.scenes.length : Int)).toNat) (""))) ∧
    ((n < -(s.scenes.length : Int)) →
      Reader.currentScene
          (Reader.setScene s (Reader.SceneId.idx n)).2 =
        Except.error (PyErr.indexError ("tuple index out of range"))) := by
  have hlen : ¬ (s.scenes.length : Int) ≤ n :=
    not_le.mpr (lt_of_lt_of_le hneg (Int.natCast_nonneg _))
  have hset : Reader.setScene s (Reader.SceneId.idx n) =
      (none, Reader.resetSelf { s with current_scene_index := n }) := by
    simp only [Reader.setScene]
    rw [if_neg hne, if_neg hlen]
  refine ⟨hset, ?_, ?_, ?_, ?_, ?_⟩
  · rw [hset]
    rfl
  · rw [hset]
    exact hneg
  · rw [hset]
    simp [Reader.resetSelf, Reader.cachesAbsent]
  · intro hge
    rw [hset]
    simp only [Reader.currentScene, Reader.resetSelf, Reader.pyTupleGet]
    rw [if_pos hneg, if_pos ⟨by omega, by omega⟩]
  · intro hlt
    rw [hset]
    simp only [Reader.currentScene, Reader.resetSelf, Reader.pyTupleGet]
    rw [if_pos hneg, if_neg (by omega)]

/-- C9 witness: `set_scene(-1)` on a fully cached two-scene reader at
index 0 succeeds, resets the caches, and `current_scene` resolves to
the last scene. -/
theorem C9_negative_index_accepted_witness :
    ((-1 : Int) < 0) ∧
    ((-1 : Int) ≠ cachedState.current_scene_index) ∧
    Reader.setScene cachedState (Reader.SceneId.idx (-1)) =
      (none, Reader.resetSelf
        { cachedState with current_scene_index := (-1) }) ∧
    Reader.currentScene
        (Reader.setScene cachedState (Reader.SceneId.idx (-1))).2 =
      Except.ok (cachedState.scenes.getD
        (((-1) + (cachedState.scenes.length : Int)).toNat) ("")) :=
  ⟨by decide, by decide,
   (C9_negative_index_accepted cachedState (-1) (by decide) (by decide)).1,
   ((C9_negative_index_accepted cachedState (-1) (by decide)
     (by decide)).2.2.2.2.1) (by decide)⟩

/-- C10: Dimensions construction performs no uniqueness check: with a
duplicated label (and matching lengths) construction succeeds, order
and shape retain the duplicates, single-label attribute lookup returns
the size paired with the label's LAST occurrence (dict-of-zip
semantics), and the items view has strictly fewer entries than the
order has labels. -/
theorem C10_duplicate_labels (dims : List Char) (shape : List Nat)
    (c : Char) (hlen : dims.length = shape.length)
    (hdup : ¬ dims.Nodup) :
    Dimensions.make dims shape = Except.ok (mkDims dims shape) ∧
    (mkDims dims shape).order = dims ∧
    (mkDims dims shape).shape = shape ∧
    (mkDims dims shape).attr c = lastPairedSize dims shape c ∧
    (mkDims dims shape).items.length < dims.length := by
  refine ⟨?_, rfl, rfl, ?_, ?_⟩
  · unfold Dimensions.make
    rw [if_neg (not_not_intro hlen)]
    rfl
  · exact pyDictGet_ofPairs _ _
  · exact pyDictOfPairs_zip_length_lt dims shape hlen hdup

/-- C10 witness: `Dimensions("TTX", (2, 5, 7))` is constructed without
error, the duplicated label T resolves to 5 (its last pairing), and
the items view has 2 entries against 3 order labels. -/
theorem C10_duplicate_labels_witness :
    (¬ List.Nodup ['T', 'T', 'X']) ∧
    Dimensions.make ['T', 'T', 'X'] [2, 5, 7] =
      Except.ok (mkDims ['T', 'T', 'X'] [2, 5, 7]) ∧
    (mkDims ['T', 'T', 'X'] [2, 5, 7]).attr 'T' =
      lastPairedSize ['T', 'T', 'X'] [2, 5, 7] 'T' ∧
    lastPairedSize ['T', 'T', 'X'] [2, 5, 7] 'T' = some 5 ∧
    (mkDims ['T', 'T', 'X'] [2, 5, 7]).items.length < 3 :=
  ⟨by decide,
   (C10_duplicate_labels ['T', 'T', 'X'] [2, 5, 7] 'T' (by decide)
     (by decide)).1,
   (C10_duplicate_labels ['T', 'T', 'X'] [2, 5, 7] 'T' (by decide)
     (by decide)).2.2.2.1,
   by decide,
   (C10_duplicate_labels ['T', 'T', 'X'] [2, 5, 7] 'T' (by decide)
     (by decide)).2.2.2.2⟩
